import Mathlib

/-
Shallow embedding of ZaycevNet/next-decorators (src/source/index.ts).

The library is a set of higher-order wrappers (TypeScript method decorators)
around an asynchronous handler `(req, res) => result`.  We model:

  * the mutable part of the framework response object (`res.status`,
    `res.json`) as a state `ResState`;
  * an async handler as a function `ResState V → Except E α × ResState V`
    (state passing plus exceptions: a thrown error aborts with the state
    reached so far);
  * the error classes `BaseError`, `MethodNotAllowedError`,
    `BadRequestError`, `ServerInternalError` (plus plain JavaScript
    `Error` values thrown by user middleware) as one inductive
    `RequestError D`, where `D` is the type of the structured detail
    payload; optional constructor arguments of the TypeScript classes are
    modelled as `Option String` (`none` = argument omitted, so the default
    applies);
  * the ajv validator engine as a pair of functions: the boolean result of
    `customAjv.compile(schema)(value)` and the contents of the engine's
    `customAjv.errors` buffer right after that call.

Each decorator factory `X = () => (t, p, d) => ...` rebinds `d.value`; we
embed the wrapped `value` function directly, as a function of the inner
handler `d.value`.
-/

namespace NextDecorators

/-- Mutable state of the framework response object: the HTTP status code set
by `res.status` and the JSON-serialized body set by `res.json`, each absent
until written. -/
structure ResState (V : Type) where
  statusCode : Option Nat
  body : Option V
deriving Repr, DecidableEq

/-- An async computation over the response state that may throw an error of
type `E`: state passing plus exceptions.  A thrown error carries the state
reached at the throw point. -/
def Async (E V α : Type) : Type := ResState V → Except E α × ResState V

/-- Return a value without touching the response. -/
def Async.pure {E V α : Type} (a : α) : Async E V α :=
fun s => (Except.ok a, s)

/-- Throw (model of a JavaScript `throw`). -/
def Async.throw {E V α : Type} (e : E) : Async E V α :=
fun s => (Except.error e, s)

/-- Sequencing (model of `await` chaining): a thrown error short-circuits. -/
def Async.bind {E V α β : Type} (m : Async E V α) (f : α → Async E V β) : Async E V β :=
fun s =>
  match m s with
  | (Except.ok a, s₁) => f a s₁
  | (Except.error e, s₁) => (Except.error e, s₁)

/-- Model of `res.status(code)`: record the HTTP status code. -/
def resStatus {E V : Type} (code : Nat) : Async E V Unit :=
fun s => (Except.ok (), ⟨some code, s.body⟩)

/-- Model of `res.json(v)`: serialize `v` as the JSON response body.
`NextApiResponse.json` returns no value, so the result is `Unit`. -/
def resJson {E V : Type} (v : V) : Async E V Unit :=
fun s => (Except.ok (), ⟨s.statusCode, some v⟩)

/-- The errors that can travel through the wrappers: the library's own
class hierarchy (`BaseError` and its three subclasses, lines 16-59 of
src/source/index.ts) plus plain JavaScript `Error` instances thrown by user
code (constructor `jsError`).  `D` is the type of the structured detail
payload (`errors` of `BadRequestError`, elements of `addition` of
`ServerInternalError`). -/
inductive RequestError (D : Type) : Type where
  | jsError (message : String)
  | baseError (message : String)
  | methodNotAllowedError (message : String)
  | badRequestError (message : String) (errors : D)
  | serverInternalError (message : String) (addition : List D)
deriving Repr, DecidableEq

/-- The `message` field each constructor stores. -/
def RequestError.message {D : Type} : RequestError D → String
  | .jsError m => m
  | .baseError m => m
  | .methodNotAllowedError m => m
  | .badRequestError m _ => m
  | .serverInternalError m _ => m

/-- The `name` field each constructor sets. -/
def RequestError.name {D : Type} : RequestError D → String
  | .jsError _ => "Error"
  | .baseError _ => "BaseError"
  | .methodNotAllowedError _ => "MethodNotAllowedError"
  | .badRequestError _ _ => "BadRequestError"
  | .serverInternalError _ _ => "ServerInternalError"

/-- The `statusCode` field: `BaseError` sets 500, `MethodNotAllowedError`
405, `BadRequestError` 400, `ServerInternalError` 500; a plain JavaScript
`Error` has no such field (`none` models `undefined`). -/
def RequestError.statusCode {D : Type} : RequestError D → Option Nat
  | .jsError _ => none
  | .baseError _ => some 500
  | .methodNotAllowedError _ => some 405
  | .badRequestError _ _ => some 400
  | .serverInternalError _ _ => some 500

/-- The `errors` field (only `BadRequestError` has one). -/
def RequestError.errors {D : Type} : RequestError D → Option D
  | .badRequestError _ e => some e
  | _ => none

/-- The `addition` field (only `ServerInternalError` has one; it is always
an array, the collected rest arguments). -/
def RequestError.addition {D : Type} : RequestError D → Option (List D)
  | .serverInternalError _ a => some a
  | _ => none

/-- `new BaseError(message)` (lines 16-25): the message argument is
required, there is no default. -/
def mkBaseError {D : Type} (message : String) : RequestError D :=
  .baseError message

/-- `new MethodNotAllowedError(message = 'Method not allowed')`
(lines 27-35): `none` models calling the constructor without an argument. -/
def mkMethodNotAllowedError {D : Type} (message : Option String) : RequestError D :=
  .methodNotAllowedError (message.getD "Method not allowed")

/-- `new BadRequestError(message = 'Bad Request', errors)` (lines 37-47). -/
def mkBadRequestError {D : Type} (message : Option String) (errors : D) : RequestError D :=
  .badRequestError (message.getD "Bad Request") errors

/-- `new ServerInternalError(message = 'Server Internal Error', ...addition)`
(lines 49-59): the rest parameter collects all remaining arguments into an
array, so `addition` here is the list of those arguments. -/
def mkServerInternalError {D : Type} (message : Option String) (addition : List D) : RequestError D :=
  .serverInternalError (message.getD "Server Internal Error") addition

/-- The incoming request object, with the fields the wrappers read:
`method`, `query`, `body`; `rest` stands for all its other fields, so two
requests can differ beyond the inspected ones. -/
structure Req (Q B A : Type) where
  method : String
  query : Q
  body : B
  rest : A
deriving Repr, DecidableEq

/-- Model of the JavaScript expression `x ? x : d` for an optional numeric
field `x`: `undefined` (`none`) and `0` are falsy, any other number is
truthy. -/
def jsOrElse (x : Option Nat) (d : Nat) : Nat :=
  match x with
  | some c => if c = 0 then d else c
  | none => d

/-- The `ErrorHandler` decorator (lines 61-71).  Given the user's decorated
method `handler`, it installs on the controller class the function
`async (error, req, res) => { res.status(error.statusCode ? error.statusCode
: 500); const response = await handler(error, req, res); return
res.json(response); }`.  `P` is the type of whatever is passed in the `req`
slot (the function merely forwards it to `handler`). -/
def ErrorHandler {D V P R : Type}
    (handler : RequestError D → P → R → Async (RequestError D) V V) :
    RequestError D → P → R → Async (RequestError D) V Unit :=
fun error req res =>
  Async.bind (resStatus (jsOrElse (RequestError.statusCode error) 500)) (fun _ =>
    Async.bind (handler error req res) (fun response =>
      resJson response))

/-- The `Request` decorator (lines 73-87), the outermost handler wrapper:
`async (req, res) => { try { const response = await handler(req, res);
return res.json(response); } catch (e) { return await
t.constructor.errorHandler(e, res, res); } }`.  `errorHandler` stands for
the function the `ErrorHandler` decorator attached to the class; note the
catch branch of the source passes `res` in BOTH argument slots after the
error, which is why the second parameter of `errorHandler` has the response
type `R`. -/
def Request {D V Rq R : Type}
    (errorHandler : RequestError D → R → R → Async (RequestError D) V Unit)
    (handler : Rq → R → Async (RequestError D) V V) :
    Rq → R → Async (RequestError D) V Unit :=
fun req res s =>
  match handler req res s with
  | (Except.ok response, s₁) => resJson response s₁
  | (Except.error e, s₁) => errorHandler e res res s₁

/-- The `All` decorator (lines 89-98): no check, always delegates. -/
def All {E V Rq R : Type} (handler : Rq → R → Async E V V) :
    Rq → R → Async E V V :=
fun req res => handler req res

/-- The `Get` decorator (lines 100-112): `if (req.method !== 'GET') throw
new MethodNotAllowedError(); return await handler(req, res);`. -/
def Get {D V Q B A R : Type} (handler : Req Q B A → R → Async (RequestError D) V V) :
    Req Q B A → R → Async (RequestError D) V V :=
fun req res =>
  if req.method ≠ "GET" then Async.throw (mkMethodNotAllowedError none)
  else handler req res

/-- The `Post` decorator (lines 114-126), same shape with verb `POST`. -/
def Post {D V Q B A R : Type} (handler : Req Q B A → R → Async (RequestError D) V V) :
    Req Q B A → R → Async (RequestError D) V V :=
fun req res =>
  if req.method ≠ "POST" then Async.throw (mkMethodNotAllowedError none)
  else handler req res

/-- The `Delete` decorator (lines 128-140), verb `DELETE`. -/
def Delete {D V Q B A R : Type} (handler : Req Q B A → R → Async (RequestError D) V V) :
    Req Q B A → R → Async (RequestError D) V V :=
fun req res =>
  if req.method ≠ "DELETE" then Async.throw (mkMethodNotAllowedError none)
  else handler req res

/-- The `Head` decorator (lines 142-154), verb `HEAD`. -/
def Head {D V Q B A R : Type} (handler : Req Q B A → R → Async (RequestError D) V V) :
    Req Q B A → R → Async (RequestError D) V V :=
fun req res =>
  if req.method ≠ "HEAD" then Async.throw (mkMethodNotAllowedError none)
  else handler req res

/-- The `Options` decorator (lines 156-168), verb `OPTIONS`. -/
def Options {D V Q B A R : Type} (handler : Req Q B A → R → Async (RequestError D) V V) :
    Req Q B A → R → Async (RequestError D) V V :=
fun req res =>
  if req.method ≠ "OPTIONS" then Async.throw (mkMethodNotAllowedError none)
  else handler req res

/-- The `Put` decorator (lines 170-182), verb `PUT`. -/
def Put {D V Q B A R : Type} (handler : Req Q B A → R → Async (RequestError D) V V) :
    Req Q B A → R → Async (RequestError D) V V :=
fun req res =>
  if req.method ≠ "PUT" then Async.throw (mkMethodNotAllowedError none)
  else handler req res

/-- The `Patch` decorator (lines 184-196), verb `PATCH`. -/
def Patch {D V Q B A R : Type} (handler : Req Q B A → R → Async (RequestError D) V V) :
    Req Q B A → R → Async (RequestError D) V V :=
fun req res =>
  if req.method ≠ "PATCH" then Async.throw (mkMethodNotAllowedError none)
  else handler req res

/-- The `Middleware` decorator (lines 198-209): `await middleware(req, res);
return await handler(req, res);`.  The callback returns `void`, hence
`Unit`. -/
def Middleware {E V Rq R : Type} (middleware : Rq → R → Async E V Unit)
    (handler : Rq → R → Async E V V) : Rq → R → Async E V V :=
fun req res =>
  Async.bind (middleware req res) (fun _ => handler req res)

/-- The value a continuation-style middleware passes to its `next`/`resolve`
continuation: either an `Error` instance (`instanceof Error` holds) or any
other JavaScript value, `undefined` included. -/
inductive NextValue (E W : Type) : Type where
  | errorValue (e : E)
  | plainValue (w : W)
deriving Repr, DecidableEq

/-- The `ExpressMiddleware` decorator (lines 211-225): `const response =
await new Promise(resolve => middleware(req, res, resolve)); if (response
instanceof Error) throw response; return await handler(req, res);`.  The
callback is modelled by the value it eventually passes to `resolve`
together with its effect on the response state. -/
def ExpressMiddleware {D V W Rq R : Type}
    (middleware : Rq → R → ResState V → NextValue (RequestError D) W × ResState V)
    (handler : Rq → R → Async (RequestError D) V V) :
    Rq → R → Async (RequestError D) V V :=
fun req res s =>
  match middleware req res s with
  | (NextValue.errorValue e, s₁) => (Except.error e, s₁)
  | (NextValue.plainValue _, s₁) => handler req res s₁

/-- Model of an ajv engine instance: `validate sch x` is the boolean result
of `customAjv.compile(sch)(x)`, and `errorsAfter sch x` is the content of
the engine's `customAjv.errors` buffer right after that call.  `S` is the
schema type, `X` the validated value type, `L` the error-list type. -/
structure AjvEngine (S X L : Type) where
  validate : S → X → Bool
  errorsAfter : S → X → L

/-- The `QuerySchema` decorator (lines 227-241): `const validate =
customAjv.compile(schema)(req.query); if (!validate) throw new
BadRequestError('Bad Request', customAjv.errors); return await
handler(req, res);`. -/
def QuerySchema {S L V Q B A R : Type} (schema : S) (customAjv : AjvEngine S Q L)
    (handler : Req Q B A → R → Async (RequestError L) V V) :
    Req Q B A → R → Async (RequestError L) V V :=
fun req res =>
  if !(customAjv.validate schema req.query) then
    Async.throw (mkBadRequestError (some "Bad Request") (customAjv.errorsAfter schema req.query))
  else handler req res

/-- The `BodySchema` decorator (lines 243-257): same as `QuerySchema` but
validating `req.body`. -/
def BodySchema {S L V Q B A R : Type} (schema : S) (customAjv : AjvEngine S B L)
    (handler : Req Q B A → R → Async (RequestError L) V V) :
    Req Q B A → R → Async (RequestError L) V V :=
fun req res =>
  if !(customAjv.validate schema req.body) then
    Async.throw (mkBadRequestError (some "Bad Request") (customAjv.errorsAfter schema req.body))
  else handler req res

/-- The `ResponseSchema` decorator (lines 259-275): `const response = await
handler(req, res); const validate = customAjv.compile(schema)(response);
if (!validate) throw new ServerInternalError('Server Internal Error',
customAjv.errors); return response;`.  The constructor is called with ONE
rest argument, so the variadic `addition` array is the one-element list
`[customAjv.errors]`. -/
def ResponseSchema {S L V Rq R : Type} (schema : S) (customAjv : AjvEngine S V L)
    (handler : Rq → R → Async (RequestError L) V V) :
    Rq → R → Async (RequestError L) V V :=
fun req res =>
  Async.bind (handler req res) (fun response =>
    if !(customAjv.validate schema response) then
      Async.throw (mkServerInternalError (some "Server Internal Error") [customAjv.errorsAfter schema response])
    else Async.pure response)

/-- C1: evaluation of the handler wrapper at a concrete failing input.  The
user's error handler returns its second argument (the slot declared
`req: Request` in the source signature).  With request object
"the-request-object" and response object "the-response-object" and a
handler that throws, the serialized body is the RESPONSE object: the catch
branch of `Request` calls `t.constructor.errorHandler(e, res, res)`, so the
error handler does not receive the original request object as its second
argument, contrary to the claim. -/
theorem c1_error_handler_receives_response_not_request :
    Request (ErrorHandler (fun (_ : RequestError Unit) (secondArg : String) (_ : String) =>
        Async.pure secondArg))
      (fun (_ : String) (_ : String) => Async.throw (mkBaseError "boom"))
      "the-request-object" "the-response-object" ⟨none, none⟩
      = (Except.ok (), ⟨some 500, some "the-response-object"⟩) := rfl

/-- C2: for every verb guard and every request whose method is not
case-sensitively equal to the guard's verb, the result is a thrown
`MethodNotAllowedError` (constructed with no argument) whose statusCode is
405, the response state is left untouched, and the result is the same for
every inner handler (the handler is never invoked and has no effect). -/
theorem c2_verb_guards_reject {D V Q B A R : Type}
    (req : Req Q B A) (res : R) (s : ResState V) :
    (mkMethodNotAllowedError (none : Option String) : RequestError D).statusCode = some 405 ∧
    (∀ handler : Req Q B A → R → Async (RequestError D) V V, req.method ≠ "GET" →
      Get handler req res s = (Except.error (mkMethodNotAllowedError none), s)) ∧
    (∀ handler : Req Q B A → R → Async (RequestError D) V V, req.method ≠ "POST" →
      Post handler req res s = (Except.error (mkMethodNotAllowedError none), s)) ∧
    (∀ handler : Req Q B A → R → Async (RequestError D) V V, req.method ≠ "DELETE" →
      Delete handler req res s = (Except.error (mkMethodNotAllowedError none), s)) ∧
    (∀ handler : Req Q B A → R → Async (RequestError D) V V, req.method ≠ "HEAD" →
      Head handler req res s = (Except.error (mkMethodNotAllowedError none), s)) ∧
    (∀ handler : Req Q B A → R → Async (RequestError D) V V, req.method ≠ "OPTIONS" →
      Options handler req res s = (Except.error (mkMethodNotAllowedError none), s)) ∧
    (∀ handler : Req Q B A → R → Async (RequestError D) V V, req.method ≠ "PUT" →
      Put handler req res s = (Except.error (mkMethodNotAllowedError none), s)) ∧
    (∀ handler : Req Q B A → R → Async (RequestError D) V V, req.method ≠ "PATCH" →
      Patch handler req res s = (Except.error (mkMethodNotAllowedError none), s)) := by
  refine ⟨rfl, ?_, ?_, ?_, ?_, ?_, ?_, ?_⟩ <;> intro handler h <;>
    simp [Get, Post, Delete, Head, Options, Put, Patch, Async.throw, h]

/-- C2 witness: the GET guard at a concrete request with method "POST"
rejects with the 405 error and an unchanged response state. -/
theorem c2_verb_guards_reject_witness :
    Get (fun (_ : Req Unit Unit Unit) (_ : Unit) => Async.pure (0 : Nat))
      ⟨"POST", (), (), ()⟩ () ⟨none, none⟩
      = ((Except.error (mkMethodNotAllowedError none), ⟨none, none⟩) :
          Except (RequestError Unit) Nat × ResState Nat) :=
  (c2_verb_guards_reject ⟨"POST", (), (), ()⟩ () ⟨none, none⟩).2.1
    (fun _ _ => Async.pure 0) (by decide)

/-- C3: every verb guard whose verb equals the request method delegates to
the inner handler with the very same request and response objects and the
same response state, returning its result unchanged; `All` does so for
every request, with no method check. -/
theorem c3_verb_guards_delegate {D V Q B A R : Type}
    (handler : Req Q B A → R → Async (RequestError D) V V)
    (req : Req Q B A) (res : R) (s : ResState V) :
    (req.method = "GET" → Get handler req res s = handler req res s) ∧
    (req.method = "POST" → Post handler req res s = handler req res s) ∧
    (req.method = "DELETE" → Delete handler req res s = handler req res s) ∧
    (req.method = "HEAD" → Head handler req res s = handler req res s) ∧
    (req.method = "OPTIONS" → Options handler req res s = handler req res s) ∧
    (req.method = "PUT" → Put handler req res s = handler req res s) ∧
    (req.method = "PATCH" → Patch handler req res s = handler req res s) ∧
    All handler req res s = handler req res s := by
  refine ⟨?_, ?_, ?_, ?_, ?_, ?_, ?_, rfl⟩ <;> intro h <;>
    simp [Get, Post, Delete, Head, Options, Put, Patch, h]

/-- C3 witness: the GET guard at a concrete request with method "GET"
forwards the inner handler's call unchanged. -/
theorem c3_verb_guards_delegate_witness :
    Get (fun (_ : Req Unit Unit Unit) (_ : Unit) =>
        (Async.pure 5 : Async (RequestError Unit) Nat Nat))
      ⟨"GET", (), (), ()⟩ () ⟨none, none⟩
      = (fun (_ : Req Unit Unit Unit) (_ : Unit) =>
        (Async.pure 5 : Async (RequestError Unit) Nat Nat)) ⟨"GET", (), (), ()⟩ () ⟨none, none⟩ :=
  (c3_verb_guards_delegate
    (fun _ _ => (Async.pure 5 : Async (RequestError Unit) Nat Nat))
    ⟨"GET", (), (), ()⟩ () ⟨none, none⟩).1 rfl

/-- C4: the handler wrapper awaits the handler; on success it serializes the
handler's return value as the JSON body (status untouched); on a thrown
error it runs the installed error handler in a response state whose status
is the error's statusCode — 500 when that field is absent (`none`) or falsy
(`0`) — set BEFORE the error handler runs, and then serializes the error
handler's return value as the JSON body (an error thrown by the error
handler itself propagates). -/
theorem c4_request_wrapper_spec {D V Rq R : Type}
    (userEH : RequestError D → R → R → Async (RequestError D) V V)
    (handler : Rq → R → Async (RequestError D) V V)
    (req : Rq) (res : R) (s : ResState V) :
    (∀ v s₁, handler req res s = (Except.ok v, s₁) →
      Request (ErrorHandler userEH) handler req res s
        = (Except.ok (), ⟨s₁.statusCode, some v⟩)) ∧
    (∀ e s₁ r₂ s₂, handler req res s = (Except.error e, s₁) →
      userEH e res res ⟨some (jsOrElse (RequestError.statusCode e) 500), s₁.body⟩ = (r₂, s₂) →
      Request (ErrorHandler userEH) handler req res s =
        match r₂ with
        | Except.ok w => (Except.ok (), ⟨s₂.statusCode, some w⟩)
        | Except.error e₂ => (Except.error e₂, s₂)) := by
  constructor
  · intro v s₁ h
    simp [Request, resJson, h]
  · intro e s₁ r₂ s₂ h₁ h₂
    cases r₂ <;>
      simp [Request, ErrorHandler, Async.bind, resStatus, resJson, h₁, h₂]

/-- C4 witness: a handler throwing a `BaseError` (statusCode 500) with an
error handler returning 7 yields status 500 and body 7. -/
theorem c4_request_wrapper_spec_witness :
    Request (ErrorHandler (fun (_ : RequestError Unit) (_ : Unit) (_ : Unit) =>
        Async.pure (7 : Nat)))
      (fun (_ : Unit) (_ : Unit) => Async.throw (mkBaseError "boom")) () () ⟨none, none⟩
      = (Except.ok (), ⟨some 500, some 7⟩) :=
  (c4_request_wrapper_spec (fun _ _ _ => Async.pure 7)
      (fun _ _ => Async.throw (mkBaseError "boom")) () () ⟨none, none⟩).2
    (mkBaseError "boom") ⟨none, none⟩ (Except.ok 7) ⟨some 500, none⟩ rfl rfl

/-- C5: the plain middleware callback runs (and is awaited) before the
inner handler; if it throws, that exact error propagates with the state the
callback reached and the result is the same for every inner handler (the
handler is never invoked); if it completes normally, the inner handler runs
with the very same request and response objects in the state the callback
left. -/
theorem c5_middleware_spec {E V Rq R : Type}
    (middleware : Rq → R → Async E V Unit) (req : Rq) (res : R) (s : ResState V) :
    (∀ e s₁, middleware req res s = (Except.error e, s₁) →
      ∀ handler : Rq → R → Async E V V,
        Middleware middleware handler req res s = (Except.error e, s₁)) ∧
    (∀ s₁, middleware req res s = (Except.ok (), s₁) →
      ∀ handler : Rq → R → Async E V V,
        Middleware middleware handler req res s = handler req res s₁) := by
  constructor
  · intro e s₁ h handler
    simp [Middleware, Async.bind, h]
  · intro s₁ h handler
    simp [Middleware, Async.bind, h]

/-- C5 witness: a middleware callback throwing the plain JavaScript error
`new Error('x')` makes the wrapped call fail with that exact error. -/
theorem c5_middleware_spec_witness :
    Middleware (fun (_ : Unit) (_ : Unit) =>
        (Async.throw (RequestError.jsError "x") : Async (RequestError Unit) Nat Unit))
      (fun _ _ => Async.pure 3) () () ⟨none, none⟩
      = (Except.error (RequestError.jsError "x"), ⟨none, none⟩) :=
  (c5_middleware_spec (fun _ _ => Async.throw (RequestError.jsError "x"))
      () () ⟨none, none⟩).1
    (RequestError.jsError "x") ⟨none, none⟩ rfl (fun _ _ => Async.pure 3)

/-- C6: for continuation-style middleware, if the value passed to the
`next`/`resolve` continuation is an `Error` instance the wrapper throws
that same value and the result is independent of the inner handler (never
invoked); if it is any non-Error value (such as `undefined`) the inner
handler runs with the same request and response objects and its result is
returned. -/
theorem c6_express_middleware_spec {D V W Rq R : Type}
    (middleware : Rq → R → ResState V → NextValue (RequestError D) W × ResState V)
    (req : Rq) (res : R) (s : ResState V) :
    (∀ e s₁, middleware req res s = (NextValue.errorValue e, s₁) →
      ∀ handler : Rq → R → Async (RequestError D) V V,
        ExpressMiddleware middleware handler req res s = (Except.error e, s₁)) ∧
    (∀ w s₁, middleware req res s = (NextValue.plainValue w, s₁) →
      ∀ handler : Rq → R → Async (RequestError D) V V,
        ExpressMiddleware middleware handler req res s = handler req res s₁) := by
  constructor
  · intro e s₁ h handler
    simp [ExpressMiddleware, h]
  · intro w s₁ h handler
    simp [ExpressMiddleware, h]

/-- C6 witness: a callback invoking `proceed(new Error('y'))` makes the
wrapped call throw that error, for a concrete inner handler. -/
theorem c6_express_middleware_spec_witness :
    ExpressMiddleware (fun (_ : Unit) (_ : Unit) (s : ResState Nat) =>
        ((NextValue.errorValue (RequestError.jsError "y") :
            NextValue (RequestError Unit) Unit), s))
      (fun _ _ => Async.pure 3) () () ⟨none, none⟩
      = (Except.error (RequestError.jsError "y"), ⟨none, none⟩) :=
  (c6_express_middleware_spec
      (fun _ _ s => (NextValue.errorValue (RequestError.jsError "y"), s))
      () () ⟨none, none⟩).1
    (RequestError.jsError "y") ⟨none, none⟩ rfl (fun _ _ => Async.pure 3)

/-- C7: `QuerySchema` (resp. `BodySchema`) validates the request's query
(resp. body) object; on failure it throws a `BadRequestError` — statusCode
400 — whose `errors` detail is the engine's collected error list, with the
response state untouched and the same result for every inner handler (never
invoked); on success it delegates to the inner handler with the same
request, response and state, returning its result unchanged. -/
theorem c7_schema_guards {S L V Q B A R : Type}
    (schema : S) (qAjv : AjvEngine S Q L) (bAjv : AjvEngine S B L)
    (req : Req Q B A) (res : R) (s : ResState V) :
    (∀ errs : L,
      (mkBadRequestError (some "Bad Request") errs).statusCode = some 400) ∧
    (qAjv.validate schema req.query = false →
      ∀ handler : Req Q B A → R → Async (RequestError L) V V,
        QuerySchema schema qAjv handler req res s
          = (Except.error (mkBadRequestError (some "Bad Request")
              (qAjv.errorsAfter schema req.query)), s)) ∧
    (qAjv.validate schema req.query = true →
      ∀ handler : Req Q B A → R → Async (RequestError L) V V,
        QuerySchema schema qAjv handler req res s = handler req res s) ∧
    (bAjv.validate schema req.body = false →
      ∀ handler : Req Q B A → R → Async (RequestError L) V V,
        BodySchema schema bAjv handler req res s
          = (Except.error (mkBadRequestError (some "Bad Request")
              (bAjv.errorsAfter schema req.body)), s)) ∧
    (bAjv.validate schema req.body = true →
      ∀ handler : Req Q B A → R → Async (RequestError L) V V,
        BodySchema schema bAjv handler req res s = handler req res s) := by
  refine ⟨fun errs => rfl, ?_, ?_, ?_, ?_⟩ <;> intro h handler <;>
    simp [QuerySchema, BodySchema, Async.throw, h]

/-- C7 witness: a query object failing validation yields the 400 error
carrying the engine's error list, with the inner handler irrelevant. -/
theorem c7_schema_guards_witness :
    QuerySchema ()
      (⟨fun _ q => decide (0 < q), fun _ _ => ["required"]⟩ : AjvEngine Unit Nat (List String))
      (fun (_ : Req Nat Unit Unit) (_ : Unit) => Async.pure (1 : Nat))
      ⟨"GET", 0, (), ()⟩ () ⟨none, none⟩
      = (Except.error (mkBadRequestError (some "Bad Request") ["required"]), ⟨none, none⟩) :=
  (c7_schema_guards () ⟨fun _ q => decide (0 < q), fun _ _ => ["required"]⟩
      (⟨fun _ _ => true, fun _ _ => []⟩ : AjvEngine Unit Unit (List String))
      ⟨"GET", 0, (), ()⟩ () ⟨none, none⟩).2.1 (by decide) (fun _ _ => Async.pure 1)

/-- C8: `ResponseSchema` runs the inner handler first and validates its
returned value; on validation failure it throws a `ServerInternalError` —
statusCode 500 — carrying the engine's collected error list; on success it
returns the handler's original value (and state) unchanged; a handler error
propagates untouched. -/
theorem c8_response_schema_spec {S L V Rq R : Type}
    (schema : S) (customAjv : AjvEngine S V L)
    (handler : Rq → R → Async (RequestError L) V V)
    (req : Rq) (res : R) (s : ResState V) :
    (∀ args : List L,
      (mkServerInternalError (some "Server Internal Error") args : RequestError L).statusCode
        = some 500) ∧
    (∀ v s₁, handler req res s = (Except.ok v, s₁) →
      customAjv.validate schema v = false →
      ResponseSchema schema customAjv handler req res s
        = (Except.error (mkServerInternalError (some "Server Internal Error")
            [customAjv.errorsAfter schema v]), s₁)) ∧
    (∀ v s₁, handler req res s = (Except.ok v, s₁) →
      customAjv.validate schema v = true →
      ResponseSchema schema customAjv handler req res s = (Except.ok v, s₁)) ∧
    (∀ e s₁, handler req res s = (Except.error e, s₁) →
      ResponseSchema schema customAjv handler req res s = (Except.error e, s₁)) := by
  refine ⟨fun args => rfl, ?_, ?_, ?_⟩
  · intro v s₁ h₁ h₂
    simp [ResponseSchema, Async.bind, Async.throw, h₁, h₂]
  · intro v s₁ h₁ h₂
    simp [ResponseSchema, Async.bind, Async.pure, h₁, h₂]
  · intro e s₁ h₁
    simp [ResponseSchema, Async.bind, h₁]

/-- C8 witness: a handler whose returned value fails validation yields the
`ServerInternalError` carrying the engine's error list. -/
theorem c8_response_schema_spec_witness :
    ResponseSchema ()
      (⟨fun _ v => decide (0 < v), fun _ _ => ["should have required property ok"]⟩ :
        AjvEngine Unit Nat (List String))
      (fun (_ : Unit) (_ : Unit) => Async.pure 0) () () ⟨none, none⟩
      = (Except.error (mkServerInternalError (some "Server Internal Error")
          [["should have required property ok"]]), ⟨none, none⟩) :=
  (c8_response_schema_spec ()
      ⟨fun _ v => decide (0 < v), fun _ _ => ["should have required property ok"]⟩
      (fun _ _ => Async.pure 0) () () ⟨none, none⟩).2.1 0 ⟨none, none⟩ rfl rfl

/-- C9: each error kind constructed without an explicit message gets its
fixed default — 'Method not allowed', 'Bad Request', 'Server Internal
Error' — while `BaseError` simply stores the message it is required to be
given; an explicit message overrides the default; and every verb-guard
rejection carries exactly the message 'Method not allowed' (the guards call
the constructor with no argument). -/
theorem c9_default_messages {D : Type} (m : String) (errs : D) (addition : List D) :
    RequestError.message (mkMethodNotAllowedError none : RequestError D)
      = "Method not allowed" ∧
    RequestError.message (mkBadRequestError none errs) = "Bad Request" ∧
    RequestError.message (mkServerInternalError none addition : RequestError D)
      = "Server Internal Error" ∧
    RequestError.message (mkBaseError m : RequestError D) = m ∧
    (∀ explicit : String,
      RequestError.message (mkMethodNotAllowedError (some explicit) : RequestError D)
        = explicit) ∧
    (∀ (V Q B A R : Type) (req : Req Q B A) (res : R) (s : ResState V)
        (handler : Req Q B A → R → Async (RequestError D) V V),
      req.method ≠ "GET" →
      (Get handler req res s).1
        = Except.error (RequestError.methodNotAllowedError "Method not allowed")) := by
  refine ⟨rfl, rfl, rfl, rfl, fun explicit => rfl, ?_⟩
  intro V Q B A R req res s handler h
  simp [Get, Async.throw, mkMethodNotAllowedError, h]

/-- C9 witness: a GET guard rejecting a POST request throws the error with
exactly the default message 'Method not allowed'. -/
theorem c9_default_messages_witness :
    (Get (fun (_ : Req Unit Unit Unit) (_ : Unit) =>
        (Async.pure 0 : Async (RequestError Unit) Nat Nat))
      ⟨"POST", (), (), ()⟩ () ⟨none, none⟩).1
      = Except.error (RequestError.methodNotAllowedError "Method not allowed") :=
  (c9_default_messages "m" () []).2.2.2.2.2 Nat Unit Unit Unit Unit
    ⟨"POST", (), (), ()⟩ () ⟨none, none⟩ (fun _ _ => Async.pure 0) (by decide)

/-- C10: `ServerInternalError` stores its rest arguments as the array
`addition` (while `BadRequestError` stores its `errors` argument directly),
so a `ResponseSchema` validation failure throws a `ServerInternalError`
whose `addition` is the ONE-element array whose single element is the
engine's error list — not that list itself. -/
theorem c10_server_internal_addition {S L V Rq R : Type}
    (schema : S) (customAjv : AjvEngine S V L)
    (handler : Rq → R → Async (RequestError L) V V)
    (req : Rq) (res : R) (s : ResState V) :
    (∀ (msg : Option String) (args : List L),
      RequestError.addition (mkServerInternalError msg args : RequestError L) = some args) ∧
    (∀ (msg : Option String) (errs : L),
      RequestError.errors (mkBadRequestError msg errs : RequestError L) = some errs) ∧
    (∀ v s₁, handler req res s = (Except.ok v, s₁) →
      customAjv.validate schema v = false →
      (ResponseSchema schema customAjv handler req res s).1
        = Except.error (RequestError.serverInternalError "Server Internal Error"
            [customAjv.errorsAfter schema v]) ∧
      RequestError.addition (RequestError.serverInternalError "Server Internal Error"
            [customAjv.errorsAfter schema v] : RequestError L)
        = some [customAjv.errorsAfter schema v] ∧
      ([customAjv.errorsAfter schema v] : List L).length = 1 ∧
      ([customAjv.errorsAfter schema v] : List L).head? = some (customAjv.errorsAfter schema v)) := by
  refine ⟨fun msg args => rfl, fun msg errs => rfl, ?_⟩
  intro v s₁ h₁ h₂
  refine ⟨?_, rfl, rfl, rfl⟩
  simp [ResponseSchema, Async.bind, Async.throw, mkServerInternalError, h₁, h₂]

/-- C10 witness: a concrete `ResponseSchema` failure throws the error whose
`addition` payload is the one-element array `[["e1"]]` wrapping the
engine's error list `["e1"]`. -/
theorem c10_server_internal_addition_witness :
    (ResponseSchema ()
        (⟨fun _ v => decide (0 < v), fun _ _ => ["e1"]⟩ : AjvEngine Unit Nat (List String))
        (fun (_ : Unit) (_ : Unit) => Async.pure 0) () () ⟨none, none⟩).1
      = Except.error (RequestError.serverInternalError "Server Internal Error" [["e1"]]) :=
  ((c10_server_internal_addition () ⟨fun _ v => decide (0 < v), fun _ _ => ["e1"]⟩
      (fun _ _ => Async.pure 0) () () ⟨none, none⟩).2.2 0 ⟨none, none⟩ rfl (by decide)).1

end NextDecorators
